import Mathlib

/-!
Shallow embedding of the ACSD web components (`src/acsd-components.js`,
second copy, lines 308-881): the `FrmwrkThemeToggle`, `FrmwrkBadge` and
`FrmwrkAlert` custom elements.  DOM-visible state (host attributes, shadow
markup facts, pending timers, dispatched events, document class list,
localStorage) is modelled as explicit record fields; each JS method becomes a
state-passing function.  `setAttribute`/`removeAttribute` on the observed
`open` attribute re-enter `attributeChangedCallback` synchronously (custom
element reactions), which the embedding models with a fuel-bounded recursion;
the JS guard `if (oldValue === newValue) return` bounds the real depth at 3,
so fuel 5 is exact.
-/

/-- JS `x || d` for a nullable string attribute value: `null`/`undefined` and
the empty string are falsy and fall back to `d`. -/
def jsOrStr (x : Option String) (d : String) : String :=
  match x with
  | none => d
  | some s => if s = "" then d else s

/-- A dispatched `CustomEvent`: name, the single `detail` payload string, and
the `bubbles` / `composed` flags. -/
structure DomEvent where
  name : String
  detail : String
  bubbles : Bool
  composed : Bool
  deriving Repr, DecidableEq

/-! ## Theme toggle (`FrmwrkThemeToggle`) -/

/-- Page-wide theme state: whether `document.documentElement` carries the
`theme-dark` class, the `localStorage` slot under key `"theme"`
(`none` = absent), and the log of dispatched events. -/
structure ThemeState where
  darkClass : Bool
  storage : Option String
  events : List DomEvent
  deriving Repr, DecidableEq

namespace FrmwrkThemeToggle

/-- `_toggleTheme` (source lines 429-452): read the current theme from the
document class, flip it, set/clear the class, persist the new theme under
key `"theme"`, and dispatch `theme-changed` with `bubbles`+`composed`. -/
def _toggleTheme (s : ThemeState) : ThemeState :=
  let currentTheme := if s.darkClass then "dark" else "light"
  let newTheme := if currentTheme = "dark" then "light" else "dark"
  let s1 := if newTheme = "dark" then { s with darkClass := true }
            else { s with darkClass := false }
  let s2 := { s1 with storage := some newTheme }
  { s2 with events := s2.events ++ [⟨"theme-changed", newTheme, true, true⟩] }

/-- `_loadSavedTheme` (source lines 460-468): on attachment, add the dark
class iff storage holds exactly `"dark"`; otherwise leave the document
untouched (the icon update is a no-op in this copy of the source). -/
def _loadSavedTheme (s : ThemeState) : ThemeState :=
  if s.storage = some "dark" then { s with darkClass := true } else s

end FrmwrkThemeToggle

/-- The auto-initialize IIFE (source lines 876-881): at script load, add the
dark class iff storage holds exactly `"dark"`. -/
def autoInit (s : ThemeState) : ThemeState :=
  if s.storage = some "dark" then { s with darkClass := true } else s

/-! ## Badge (`FrmwrkBadge`) -/

/-- Per-instance badge state: the `_variant` field and the class string of
the inner `span.badge` element. -/
structure BadgeState where
  variant : String
  badgeClass : String
  deriving Repr, DecidableEq

namespace FrmwrkBadge

/-- `_updateVariant` (source lines 553-558): re-write the inner element's
class to `badge ${this._variant}` verbatim. -/
def _updateVariant (s : BadgeState) : BadgeState :=
  { s with badgeClass := "badge " ++ s.variant }

/-- `attributeChangedCallback` for `variant` (source lines 503-508):
`this._variant = newValue || 'primary'`, then `_updateVariant()`. -/
def attrChangedVariant (s : BadgeState) (newV : Option String) : BadgeState :=
  _updateVariant { s with variant := jsOrStr newV "primary" }

end FrmwrkBadge

/-! ## Alert (`FrmwrkAlert`) -/

/-- Per-instance alert state.  `_open`, `variant`, `dismissible` are the
internal JS fields; `hostOpenAttr` is the host element's `open` attribute
(`none` = absent); `alertClass`, `iconText`, `dismissingClass`,
`hasCloseButton` describe the shadow markup; `closeHandlerAttached` records
whether a click handler is attached to the current close button; `timers`
holds the absolute fire times of pending `setTimeout` callbacks from
`_dismiss`; `events` logs dispatched events; `now` is the current time in
milliseconds. -/
structure AlertState where
  variant : String
  dismissible : Bool
  _open : Bool
  hostOpenAttr : Option String
  alertClass : String
  iconText : String
  dismissingClass : Bool
  hasCloseButton : Bool
  closeHandlerAttached : Bool
  timers : List Nat
  events : List DomEvent
  now : Nat
  deriving Repr, DecidableEq

namespace FrmwrkAlert

/-- The `variantIcons` object (source lines 646-651 and 802-807): all four
known variants map to the empty string; unknown keys are absent. -/
def variantIcons (v : String) : Option String :=
  if v = "info" ∨ v = "success" ∨ v = "warning" ∨ v = "error" then some ""
  else none

/-- `attributeChangedCallback` for `open` (source lines 638-641) together
with `_updateVisibility` (lines 829-835), fuel-bounded because
`_updateVisibility` mutates the observed attribute and so re-enters the
callback.  Arguments: fuel, state after the host mutation, `oldValue`,
`newValue`.  Per the source, the body runs only when `oldValue ≠ newValue`;
then `this._open = newValue !== 'false' && newValue !== null`, and
`_updateVisibility` either sets `open="false"` or removes `open`. -/
def attrChangedOpenCore : Nat → AlertState → Option String → Option String → AlertState
  | 0, s, _, _ => s
  | fuel + 1, s, oldV, newV =>
    if oldV = newV then s
    else
      let s1 := { s with _open := (newV != some "false") && (newV != none) }
      if s1._open then
        match s1.hostOpenAttr with
        | none => s1
        | some old =>
          attrChangedOpenCore fuel { s1 with hostOpenAttr := none } (some old) none
      else
        attrChangedOpenCore fuel { s1 with hostOpenAttr := some "false" }
          s1.hostOpenAttr (some "false")

/-- `this.setAttribute('open', v)`: mutate the host attribute, then run the
attribute-changed reaction (the DOM fires it even when the value is
replaced by an equal one; the callback's own guard then returns). -/
def setAttrOpen (s : AlertState) (v : String) : AlertState :=
  attrChangedOpenCore 5 { s with hostOpenAttr := some v } s.hostOpenAttr (some v)

/-- `this.removeAttribute('open')`: a no-op when the attribute is absent;
otherwise remove it and run the attribute-changed reaction with `null`. -/
def removeAttrOpen (s : AlertState) : AlertState :=
  match s.hostOpenAttr with
  | none => s
  | some old => attrChangedOpenCore 5 { s with hostOpenAttr := none } (some old) none

/-- `_render` (source lines 645-795): rebuild the shadow markup: the inner
div's class is `alert ${this._variant}` verbatim, the icon text is
`variantIcons[this._variant] || variantIcons.info`, the close button is
present iff `this._dismissible`, and the fresh markup carries no
`dismissing` class and no attached handlers. -/
def _render (s : AlertState) : AlertState :=
  { s with
      alertClass := "alert " ++ s.variant
      iconText := jsOrStr (variantIcons s.variant) (jsOrStr (variantIcons "info") "")
      hasCloseButton := s.dismissible
      dismissingClass := false
      closeHandlerAttached := false }

/-- `_updateVariant` (source lines 798-815): re-write the inner div's class
to `alert ${this._variant}` and the icon to
`variantIcons[this._variant] || variantIcons.info`. -/
def _updateVariant (s : AlertState) : AlertState :=
  { s with
      alertClass := "alert " ++ s.variant
      iconText := jsOrStr (variantIcons s.variant) (jsOrStr (variantIcons "info") "") }

/-- `attributeChangedCallback` for `variant` (source lines 630-633):
`this._variant = newValue || 'info'`, then `_updateVariant()`. -/
def attrChangedVariant (s : AlertState) (newV : Option String) : AlertState :=
  _updateVariant { s with variant := jsOrStr newV "info" }

/-- `_updateDismissible` (source lines 817-827): re-render, then re-attach
the close button's click handler iff now dismissible. -/
def _updateDismissible (s : AlertState) : AlertState :=
  let s1 := _render s
  if s1.dismissible then { s1 with closeHandlerAttached := true } else s1

/-- `attributeChangedCallback` for `dismissible` (source lines 634-637):
`this._dismissible = newValue !== null`, then `_updateDismissible()`. -/
def attrChangedDismissible (s : AlertState) (newV : Option String) : AlertState :=
  _updateDismissible { s with dismissible := newV.isSome }

/-- `_dismiss` (source lines 837-855): add the `dismissing` class to the
inner div and schedule the completion callback 300 ms from now.  No guard
against an already-pending timer. -/
def _dismiss (s : AlertState) : AlertState :=
  { s with dismissingClass := true, timers := s.timers ++ [s.now + 300] }

/-- The body of the `setTimeout` callback inside `_dismiss` (source lines
844-854): set `this._open = false`, set the host attribute `open="false"`
(re-entering the attribute reaction), then dispatch `alert-dismissed` with
the current variant, `bubbles` and `composed`. -/
def dismissTimeoutBody (s : AlertState) : AlertState :=
  let s1 := { s with _open := false }
  let s2 := setAttrOpen s1 "false"
  { s2 with events := s2.events ++ [⟨"alert-dismissed", s2.variant, true, true⟩] }

/-- `show` (source lines 858-861): `this._open = true` then
`this.removeAttribute('open')` (which re-enters the attribute reaction). -/
def «show» (s : AlertState) : AlertState :=
  removeAttrOpen { s with _open := true }

/-- Public `dismiss` (source lines 864-866): delegates to `_dismiss` with no
check of `this._dismissible`. -/
def dismiss (s : AlertState) : AlertState :=
  _dismiss s

/-- A user activation of the close control (click, or Enter/Space via the
keydown handler, source lines 601-617): both handlers call `_dismiss`; an
activation can only occur when the markup has the close button and a
handler is attached to it. -/
def closeButtonActivate (s : AlertState) : AlertState :=
  if s.hasCloseButton && s.closeHandlerAttached then _dismiss s else s

end FrmwrkAlert

/-- The event loop firing the earliest pending dismiss timer: advance the
clock to its fire time, drop it from the queue, and run the `setTimeout`
body from `_dismiss`. -/
def fireDismissTimer (s : AlertState) : AlertState :=
  match s.timers with
  | [] => s
  | t :: rest => FrmwrkAlert.dismissTimeoutBody { s with timers := rest, now := t }

/-! ## Concrete states used by witnesses and counterexamples -/

/-- An open, dismissible `warning` alert as rendered and connected: `open`
attribute absent, close button present with handlers attached, no pending
timers, no dispatched events. -/
def alertOpen0 : AlertState :=
  ⟨"warning", true, true, none, "alert warning", "", false, true, true, [], [], 0⟩

/-- A dismissed (closed) `info` alert: internal `_open = false` and host
attribute `open="false"`. -/
def alertClosed0 : AlertState :=
  ⟨"info", true, false, some "false", "alert info", "", false, true, true, [], [], 0⟩

/-- An open, non-dismissible `error` alert: no close button in the markup,
no handler attached. -/
def alertNoDismiss0 : AlertState :=
  ⟨"error", false, true, none, "alert error", "", false, false, false, [], [], 0⟩

/-- A page with the light theme and no persisted preference. -/
def theme0 : ThemeState := ⟨false, none, []⟩

/-- A page with the dark class set and `"dark"` persisted. -/
def themeDark0 : ThemeState := ⟨true, some "dark", []⟩

/-- A badge currently showing the default variant. -/
def badge0 : BadgeState := ⟨"primary", "badge primary"⟩

/-! ## Claims -/

/-- C1: for every dismissible alert in the open state, a single dismiss
request schedules exactly one completion exactly 300 ms in the future and
emits nothing yet; firing that completion transitions to closed (internal
`_open = false`, host attribute `open="false"`) and emits exactly one
`alert-dismissed` event carrying the alert's variant with `bubbles` and
`composed`, leaving no further pending completion. -/
theorem C1_single_dismiss_closes_once_after_300ms (s : AlertState)
    (h1 : s._open = true) (h2 : s.dismissible = true)
    (h3 : s.hostOpenAttr = none) (h4 : s.timers = []) (h5 : s.events = []) :
    (FrmwrkAlert._dismiss s).timers = [s.now + 300] ∧
    (FrmwrkAlert._dismiss s)._open = true ∧
    (FrmwrkAlert._dismiss s).events = [] ∧
    (fireDismissTimer (FrmwrkAlert._dismiss s))._open = false ∧
    (fireDismissTimer (FrmwrkAlert._dismiss s)).hostOpenAttr = some "false" ∧
    (fireDismissTimer (FrmwrkAlert._dismiss s)).events =
      [⟨"alert-dismissed", s.variant, true, true⟩] ∧
    (fireDismissTimer (FrmwrkAlert._dismiss s)).timers = [] := by
  rcases s with ⟨va, di, op, ho, ac, ic, dc, hc, ch, ti, ev, no⟩
  simp only at h1 h2 h3 h4 h5
  subst h1 h2 h3 h4 h5
  exact ⟨rfl, rfl, rfl, rfl, rfl, rfl, rfl⟩

/-- Witness for C1 at the concrete open dismissible alert `alertOpen0`. -/
theorem C1_single_dismiss_closes_once_after_300ms_witness :
    (FrmwrkAlert._dismiss alertOpen0).timers = [alertOpen0.now + 300] ∧
    (FrmwrkAlert._dismiss alertOpen0)._open = true ∧
    (FrmwrkAlert._dismiss alertOpen0).events = [] ∧
    (fireDismissTimer (FrmwrkAlert._dismiss alertOpen0))._open = false ∧
    (fireDismissTimer (FrmwrkAlert._dismiss alertOpen0)).hostOpenAttr = some "false" ∧
    (fireDismissTimer (FrmwrkAlert._dismiss alertOpen0)).events =
      [⟨"alert-dismissed", alertOpen0.variant, true, true⟩] ∧
    (fireDismissTimer (FrmwrkAlert._dismiss alertOpen0)).timers = [] :=
  C1_single_dismiss_closes_once_after_300ms alertOpen0 rfl rfl rfl rfl rfl

/-- C2: the code evaluated at the failing input.  `show()` on a closed alert
(internal `_open = false`, host `open="false"`) does NOT reopen it: the
`removeAttribute('open')` inside `show` re-enters `attributeChangedCallback`
with `newValue = null`, which sets `_open = false` and re-writes the host
attribute to `open="false"`, so the alert stays closed — contradicting both
the spec and the method's own doc comment. -/
theorem C2_show_on_closed_alert_stays_closed :
    (FrmwrkAlert.«show» alertClosed0)._open = false ∧
    (FrmwrkAlert.«show» alertClosed0).hostOpenAttr = some "false" := by
  decide

/-- C3 counterexample: setting `variant="bogus"` on a badge renders class
`badge bogus`, not the default variant's class `badge primary`, so an
unrecognized variant does not yield the same rendered style as the default. -/
theorem C3_counterexample_unrecognized_badge_class :
    (FrmwrkBadge.attrChangedVariant badge0 (some "bogus")).badgeClass = "badge bogus" ∧
    (FrmwrkBadge.attrChangedVariant badge0 (some "bogus")).badgeClass ≠ "badge primary" := by
  decide

/-- C3 amended: a non-empty unrecognized variant value is applied verbatim
as the inner element's class (`badge v` / `alert v`), so it gets only the
base styling rather than the default variant's class; no error path exists
(the update is a total function); only a removed or empty attribute falls
back to the default variant (`primary` / `info`). -/
theorem C3_unrecognized_variant_applied_verbatim (b : BadgeState) (a : AlertState)
    (v : String) (h : v ≠ "") :
    (FrmwrkBadge.attrChangedVariant b (some v)).badgeClass = "badge " ++ v ∧
    (FrmwrkAlert.attrChangedVariant a (some v)).alertClass = "alert " ++ v ∧
    (FrmwrkBadge.attrChangedVariant b none).badgeClass = "badge primary" ∧
    (FrmwrkAlert.attrChangedVariant a none).alertClass = "alert info" := by
  simp [FrmwrkBadge.attrChangedVariant, FrmwrkBadge._updateVariant,
        FrmwrkAlert.attrChangedVariant, FrmwrkAlert._updateVariant, jsOrStr, h]

/-- Witness for the amended C3 at the concrete value `"bogus"`. -/
theorem C3_unrecognized_variant_applied_verbatim_witness :
    (FrmwrkBadge.attrChangedVariant badge0 (some "bogus")).badgeClass = "badge " ++ "bogus" ∧
    (FrmwrkAlert.attrChangedVariant alertOpen0 (some "bogus")).alertClass = "alert " ++ "bogus" ∧
    (FrmwrkBadge.attrChangedVariant badge0 none).badgeClass = "badge primary" ∧
    (FrmwrkAlert.attrChangedVariant alertOpen0 none).alertClass = "alert info" :=
  C3_unrecognized_variant_applied_verbatim badge0 alertOpen0 "bogus" (by decide)

/-- C4 counterexample: dismissing the concrete open dismissible alert twice
before the delay elapses schedules the closing effect twice (two pending
timers) and, once both fire, emits two `alert-dismissed` events — the
second dismiss is not the claimed no-op. -/
theorem C4_counterexample_double_dismiss_double_effect :
    (FrmwrkAlert._dismiss (FrmwrkAlert._dismiss alertOpen0)).timers.length = 2 ∧
    (fireDismissTimer (fireDismissTimer
        (FrmwrkAlert._dismiss (FrmwrkAlert._dismiss alertOpen0)))).events.length = 2 := by
  decide

/-- C4 amended: invoking dismiss a second time before the 300 ms delay
elapses schedules the closing effect a second time and, after both timers
fire, a second identical `alert-dismissed` event is emitted; the final
visible state is nevertheless the same closed state a single dismiss
produces. -/
theorem C4_double_dismiss_schedules_and_emits_twice (s : AlertState)
    (h1 : s._open = true) (h2 : s.dismissible = true)
    (h3 : s.hostOpenAttr = none) (h4 : s.timers = []) (h5 : s.events = []) :
    (FrmwrkAlert._dismiss (FrmwrkAlert._dismiss s)).timers = [s.now + 300, s.now + 300] ∧
    (fireDismissTimer (fireDismissTimer
        (FrmwrkAlert._dismiss (FrmwrkAlert._dismiss s))))._open = false ∧
    (fireDismissTimer (fireDismissTimer
        (FrmwrkAlert._dismiss (FrmwrkAlert._dismiss s)))).hostOpenAttr = some "false" ∧
    (fireDismissTimer (fireDismissTimer
        (FrmwrkAlert._dismiss (FrmwrkAlert._dismiss s)))).events =
      [⟨"alert-dismissed", s.variant, true, true⟩,
       ⟨"alert-dismissed", s.variant, true, true⟩] := by
  rcases s with ⟨va, di, op, ho, ac, ic, dc, hc, ch, ti, ev, no⟩
  simp only at h1 h2 h3 h4 h5
  subst h1 h2 h3 h4 h5
  exact ⟨rfl, rfl, rfl, rfl⟩

/-- Witness for the amended C4 at the concrete alert `alertOpen0`. -/
theorem C4_double_dismiss_schedules_and_emits_twice_witness :
    (FrmwrkAlert._dismiss (FrmwrkAlert._dismiss alertOpen0)).timers =
      [alertOpen0.now + 300, alertOpen0.now + 300] ∧
    (fireDismissTimer (fireDismissTimer
        (FrmwrkAlert._dismiss (FrmwrkAlert._dismiss alertOpen0))))._open = false ∧
    (fireDismissTimer (fireDismissTimer
        (FrmwrkAlert._dismiss (FrmwrkAlert._dismiss alertOpen0)))).hostOpenAttr = some "false" ∧
    (fireDismissTimer (fireDismissTimer
        (FrmwrkAlert._dismiss (FrmwrkAlert._dismiss alertOpen0)))).events =
      [⟨"alert-dismissed", alertOpen0.variant, true, true⟩,
       ⟨"alert-dismissed", alertOpen0.variant, true, true⟩] :=
  C4_double_dismiss_schedules_and_emits_twice alertOpen0 rfl rfl rfl rfl rfl

/-- C5 counterexample: on the concrete non-dismissible open alert, the
public programmatic `dismiss()` still triggers the `open → dismissing`
transition (the `dismissing` class is added and the completion scheduled),
refuting "no dismiss request ... nor a programmatic dismiss() call causes
the open → dismissing transition". -/
theorem C5_counterexample_programmatic_dismiss_ignores_flag :
    alertNoDismiss0.dismissible = false ∧
    (FrmwrkAlert.dismiss alertNoDismiss0).dismissingClass = true ∧
    (FrmwrkAlert.dismiss alertNoDismiss0).timers = [300] := by
  decide

/-- C5 amended: when `dismissible` is false the rendered markup exposes no
close control, so no user activation of the control can occur (activation
is a no-op), but the public programmatic `dismiss()` is not guarded by the
flag and still performs the `open → dismissing` transition. -/
theorem C5_no_close_control_but_programmatic_dismiss_works (s : AlertState)
    (h : s.dismissible = false) :
    (FrmwrkAlert._render s).hasCloseButton = false ∧
    FrmwrkAlert.closeButtonActivate (FrmwrkAlert._render s) = FrmwrkAlert._render s ∧
    (FrmwrkAlert.dismiss s).dismissingClass = true ∧
    (FrmwrkAlert.dismiss s).timers = s.timers ++ [s.now + 300] := by
  simp [FrmwrkAlert._render, FrmwrkAlert.closeButtonActivate, FrmwrkAlert.dismiss,
        FrmwrkAlert._dismiss, h]

/-- Witness for the amended C5 at the concrete alert `alertNoDismiss0`. -/
theorem C5_no_close_control_witness :
    (FrmwrkAlert._render alertNoDismiss0).hasCloseButton = false ∧
    FrmwrkAlert.closeButtonActivate (FrmwrkAlert._render alertNoDismiss0) =
      FrmwrkAlert._render alertNoDismiss0 ∧
    (FrmwrkAlert.dismiss alertNoDismiss0).dismissingClass = true ∧
    (FrmwrkAlert.dismiss alertNoDismiss0).timers =
      alertNoDismiss0.timers ++ [alertNoDismiss0.now + 300] :=
  C5_no_close_control_but_programmatic_dismiss_works alertNoDismiss0 rfl

/-- C6 counterexample: starting from the light theme with no persisted
value, two toggles restore the document flag but leave `"light"` in
storage, so the persisted storage value does not return to its original
(absent) state. -/
theorem C6_counterexample_storage_not_restored :
    (FrmwrkThemeToggle._toggleTheme (FrmwrkThemeToggle._toggleTheme theme0)).darkClass =
      theme0.darkClass ∧
    (FrmwrkThemeToggle._toggleTheme (FrmwrkThemeToggle._toggleTheme theme0)).storage ≠
      theme0.storage := by
  decide

/-- C6 amended: two toggles always restore the document-level dark flag;
the persisted value afterwards is exactly the string encoding that
(restored) flag, so it equals the original persisted value precisely when
storage already encoded the flag — not for every initial storage state. -/
theorem C6_double_toggle_restores_flag (s : ThemeState) :
    (FrmwrkThemeToggle._toggleTheme (FrmwrkThemeToggle._toggleTheme s)).darkClass =
      s.darkClass ∧
    (FrmwrkThemeToggle._toggleTheme (FrmwrkThemeToggle._toggleTheme s)).storage =
      some (if s.darkClass then "dark" else "light") := by
  rcases s with ⟨d, st, ev⟩
  cases d <;> simp [FrmwrkThemeToggle._toggleTheme]

/-- C7: a toggle attached with no persisted preference starts light; one
activation sets the document dark flag, persists `"dark"` under the theme
key, and emits exactly one `theme-changed` event with payload `dark`,
bubbling and composed. -/
theorem C7_fresh_toggle_first_activation (s : ThemeState)
    (h1 : s.storage = none) (h2 : s.darkClass = false) (h3 : s.events = []) :
    (FrmwrkThemeToggle._loadSavedTheme s).darkClass = false ∧
    (FrmwrkThemeToggle._toggleTheme (FrmwrkThemeToggle._loadSavedTheme s)).darkClass = true ∧
    (FrmwrkThemeToggle._toggleTheme (FrmwrkThemeToggle._loadSavedTheme s)).storage =
      some "dark" ∧
    (FrmwrkThemeToggle._toggleTheme (FrmwrkThemeToggle._loadSavedTheme s)).events =
      [⟨"theme-changed", "dark", true, true⟩] := by
  rcases s with ⟨d, st, ev⟩
  simp only at h1 h2 h3
  subst h1 h2 h3
  decide

/-- Witness for C7 at the concrete fresh page `theme0`. -/
theorem C7_fresh_toggle_first_activation_witness :
    (FrmwrkThemeToggle._loadSavedTheme theme0).darkClass = false ∧
    (FrmwrkThemeToggle._toggleTheme (FrmwrkThemeToggle._loadSavedTheme theme0)).darkClass = true ∧
    (FrmwrkThemeToggle._toggleTheme (FrmwrkThemeToggle._loadSavedTheme theme0)).storage =
      some "dark" ∧
    (FrmwrkThemeToggle._toggleTheme (FrmwrkThemeToggle._loadSavedTheme theme0)).events =
      [⟨"theme-changed", "dark", true, true⟩] :=
  C7_fresh_toggle_first_activation theme0 rfl rfl rfl

/-- The C8 invariant: the persisted value is exactly `"light"` or `"dark"`,
and it is `"dark"` iff the document-level dark flag is set. -/
def themeInvariant (s : ThemeState) : Prop :=
  (s.storage = some "light" ∨ s.storage = some "dark") ∧
  (s.storage = some "dark" ↔ s.darkClass = true)

/-- C8: every toggle activation establishes (hence preserves) the
storage-mirrors-flag invariant from any prior state, and the load-time
auto-initialization re-establishes it whenever storage holds `"dark"`. -/
theorem C8_storage_mirrors_document_flag (s : ThemeState) :
    themeInvariant (FrmwrkThemeToggle._toggleTheme s) ∧
    (s.storage = some "dark" → themeInvariant (autoInit s)) := by
  rcases s with ⟨d, st, ev⟩
  constructor
  · cases d <;> simp [FrmwrkThemeToggle._toggleTheme, themeInvariant]
  · intro h
    simp only at h
    subst h
    simp [autoInit, themeInvariant]

/-- Witness for C8: the invariant after a toggle from the fresh page, and
after auto-initialization on a page whose storage holds `"dark"`. -/
theorem C8_storage_mirrors_document_flag_witness :
    themeInvariant (FrmwrkThemeToggle._toggleTheme theme0) ∧
    themeInvariant (autoInit themeDark0) :=
  ⟨(C8_storage_mirrors_document_flag theme0).1,
   (C8_storage_mirrors_document_flag themeDark0).2 rfl⟩

/-- C9: the `dismissible` attribute-change reaction toggles the close
control (present iff the new attribute value is non-null) and leaves it
with a freshly attached activation handler exactly when present, while the
internal `_open` flag and the host `open` attribute are unchanged. -/
theorem C9_dismissible_change_preserves_open_state (s : AlertState) (newV : Option String) :
    (FrmwrkAlert.attrChangedDismissible s newV)._open = s._open ∧
    (FrmwrkAlert.attrChangedDismissible s newV).hostOpenAttr = s.hostOpenAttr ∧
    (FrmwrkAlert.attrChangedDismissible s newV).hasCloseButton = newV.isSome ∧
    (FrmwrkAlert.attrChangedDismissible s newV).closeHandlerAttached = newV.isSome := by
  rcases s with ⟨va, di, op, ho, ac, ic, dc, hc, ch, ti, ev, no⟩
  cases newV <;>
    simp [FrmwrkAlert.attrChangedDismissible, FrmwrkAlert._updateDismissible,
          FrmwrkAlert._render]

/-- C10: removing the host `open` attribute, whatever its current value,
closes the alert: the attribute reaction runs with `newValue = null`, sets
internal `_open` to false, and re-writes the host attribute to
`open="false"`. -/
theorem C10_removing_open_attribute_closes_alert (s : AlertState) (v : String)
    (h : s.hostOpenAttr = some v) :
    (FrmwrkAlert.removeAttrOpen s)._open = false ∧
    (FrmwrkAlert.removeAttrOpen s).hostOpenAttr = some "false" := by
  rcases s with ⟨va, di, op, ho, ac, ic, dc, hc, ch, ti, ev, no⟩
  simp only at h
  subst h
  exact ⟨rfl, rfl⟩

/-- Witness for C10: removing `open="true"` from a concrete alert closes
it. -/
theorem C10_removing_open_attribute_closes_alert_witness :
    (FrmwrkAlert.removeAttrOpen { alertOpen0 with hostOpenAttr := some "true" })._open = false ∧
    (FrmwrkAlert.removeAttrOpen { alertOpen0 with
        hostOpenAttr := some "true" }).hostOpenAttr = some "false" :=
  C10_removing_open_attribute_closes_alert
    { alertOpen0 with hostOpenAttr := some "true" } "true" rfl
